import Mathlib

/-!
Shallow embedding of the webhook signature verification subsystem of
`src/types/webhook.rs` (module `verification`) of the `plaid` crate.

External crate operations (`jsonwebtoken`, `openssl`, `base64`, `hex`) are
modelled as fields of a `CryptoEnv` record; each field mirrors the exact
failure shape (`Option` for a fallible crate call) of the call the source
makes, and the current unix time (`jsonwebtoken::get_current_timestamp`) is
the `now` field.  The source's own functions (`Jwk::is_expired`,
`string_to_big_num`, `extract_key_id`, `verify_webhook`) are translated
match-for-match from the Rust.
-/

namespace Plaid

/-- The possible errors of webhook verification (`WebhookVerificationError` in
the source).  The `ApiError` variant's payload (`crate::Error`) plays no role
in the verification logic and is modelled without its inner value. -/
inductive WebhookVerificationError where
  | ApiError : WebhookVerificationError
  | MissingParameter : String → WebhookVerificationError
  | IncorrectAlgorithm : WebhookVerificationError
  | CouldNotParse : WebhookVerificationError
  | CouldNotValidate : WebhookVerificationError
  | Cryptography : WebhookVerificationError
deriving DecidableEq, Repr

/-- `jsonwebtoken::jwk::EllipticCurve`. -/
inductive EllipticCurve where
  | P256 : EllipticCurve
  | P384 : EllipticCurve
  | P521 : EllipticCurve
  | Ed25519 : EllipticCurve
deriving DecidableEq, Repr

/-- `jsonwebtoken::jwk::EllipticCurveKeyParameters`.  The constant
`key_type` field (always the `EC` marker, ignored by the source's `..`
pattern) is omitted; `x` and `y` are the base64url-encoded affine
coordinates. -/
structure EllipticCurveKeyParameters where
  curve : EllipticCurve
  x : String
  y : String
deriving DecidableEq, Repr

/-- `jsonwebtoken::jwk::AlgorithmParameters`.  Only the `EllipticCurve`
variant's payload is ever inspected by the source; the payloads of the other
variants are irrelevant and omitted. -/
inductive AlgorithmParameters where
  | EllipticCurve : EllipticCurveKeyParameters → AlgorithmParameters
  | RSA : AlgorithmParameters
  | OctetKey : AlgorithmParameters
  | OctetKeyPair : AlgorithmParameters
deriving DecidableEq, Repr

/-- `jsonwebtoken::jwk::Jwk` (the `inner` field of the source's wrapper).
Only its `algorithm` field is read by the source. -/
structure BaseJwk where
  algorithm : AlgorithmParameters
deriving DecidableEq, Repr

/-- The source's custom wrapper around a JWK: the inner key plus Plaid's
`created_at` / `expired_at` unix timestamps. -/
structure Jwk where
  inner : BaseJwk
  created_at : Nat
  expired_at : Option Nat
deriving DecidableEq, Repr

/-- The JWT claims that Plaid provides (`Claims` in the source). -/
structure Claims where
  iat : Nat
  request_body_sha256 : String
deriving DecidableEq, Repr

/-- `jsonwebtoken::Algorithm`. -/
inductive Algorithm where
  | HS256 : Algorithm
  | HS384 : Algorithm
  | HS512 : Algorithm
  | ES256 : Algorithm
  | ES384 : Algorithm
  | RS256 : Algorithm
  | RS384 : Algorithm
  | RS512 : Algorithm
  | PS256 : Algorithm
  | PS384 : Algorithm
  | PS512 : Algorithm
  | EdDSA : Algorithm
deriving DecidableEq, Repr

/-- `jsonwebtoken::Header`, restricted to the two fields the source reads. -/
structure Header where
  alg : Algorithm
  kid : Option String
deriving DecidableEq, Repr

/-- The external crate operations used by the source, as an explicit
environment.  Bytes are `List Nat`, an `openssl` `BigNum` is its `Nat` value,
an `EcGroup` is a unit marker (only the P-256 group is ever built), an
`EcKey` is its pair of coordinates, and a PEM blob / `DecodingKey` are byte
lists.  `none` models the crate call returning `Err`. -/
structure CryptoEnv where
  /-- `jsonwebtoken::get_current_timestamp()`: current unix time (u64). -/
  now : Nat
  /-- `jsonwebtoken::decode_header`: base64url-decode and deserialize the
  token's header segment; `none` on any malformed token/header. -/
  decode_header : String → Option Header
  /-- `base64::decode_config(val, base64::URL_SAFE_NO_PAD)`. -/
  decode_config_url_no_pad : String → Option (List Nat)
  /-- `openssl::bn::BigNum::from_slice` (big-endian bytes to integer). -/
  big_num_from_slice : List Nat → Option Nat
  /-- `EcGroup::from_curve_name(Nid::X9_62_PRIME256V1)`. -/
  ec_group_p256 : Option Unit
  /-- `EcKey::from_public_key_affine_coordinates(&group, &x, &y)`:
  fails when `(x, y)` is not a valid point on the curve. -/
  ec_key_from_affine_coordinates : Unit → Nat → Nat → Option (Nat × Nat)
  /-- `EcKey::public_key_to_pem`. -/
  public_key_to_pem : Nat × Nat → Option (List Nat)
  /-- `jsonwebtoken::DecodingKey::from_ec_pem`. -/
  decoding_key_from_ec_pem : List Nat → Option (List Nat)
  /-- `jsonwebtoken::decode::<Claims>(&token, &key, &val)` with `val` the
  ES256 validation whose `required_spec_claims` is empty and whose
  `validate_exp` is false: `none` when the signature check fails or the
  claims cannot be deserialized. -/
  jwt_decode_es256 : String → List Nat → Option Claims
  /-- `openssl::sha::sha256`. -/
  sha256 : List Nat → List Nat
  /-- `hex::FromHex::from_hex` into a `[u8; 32]`. -/
  from_hex_32 : String → Option (List Nat)

/-- Wrapping unsigned 64-bit subtraction: the release-mode semantics of the
source's unguarded `now - (5 * 60)` on `u64`. -/
def u64_sub (a b : Nat) : Nat := (a + 2 ^ 64 - b) % 2 ^ 64

/-- Checked unsigned subtraction: `none` models the debug-mode underflow
panic of `u64` subtraction. -/
def u64_checked_sub (a b : Nat) : Option Nat := if b ≤ a then some (a - b) else none

/-- `Jwk::is_expired` from the source:
`self.expired_at.map(|expired_at| expired_at < now)` where `now` is the
current timestamp (passed explicitly here in place of the clock read). -/
def Jwk.is_expired (self : Jwk) (now : Nat) : Option Bool :=
  self.expired_at.map fun expired_at => decide (expired_at < now)

/-- `string_to_big_num` from the source: base64url-decode (no padding), then
build a big number from the bytes; either failure is `CouldNotParse`. -/
def string_to_big_num (env : CryptoEnv) (val : String) :
    Except WebhookVerificationError Nat :=
  match env.decode_config_url_no_pad val with
  | none => Except.error WebhookVerificationError.CouldNotParse
  | some b64 =>
    match env.big_num_from_slice b64 with
    | none => Except.error WebhookVerificationError.CouldNotParse
    | some n => Except.ok n

/-- `extract_key_id` from the source: decode the header, require `ES256`,
require a `kid`. -/
def extract_key_id (env : CryptoEnv) (token : String) :
    Except WebhookVerificationError String :=
  match env.decode_header token with
  | none => Except.error WebhookVerificationError.CouldNotParse
  | some header =>
    if header.alg ≠ Algorithm.ES256 then
      Except.error WebhookVerificationError.IncorrectAlgorithm
    else
      match header.kid with
      | some kid => Except.ok kid
      | none => Except.error (WebhookVerificationError.MissingParameter "kid")

/-- `verify_webhook` from the source, translated match-for-match; the
`webhook_sha` binding of the source is inlined into the final comparison
(both are pure).  The freshness check uses the wrapping `u64` subtraction of
release builds. -/
def verify_webhook (env : CryptoEnv) (key : Jwk) (token : String)
    (webhook_bytes : List Nat) : Except WebhookVerificationError Bool :=
  match key.inner.algorithm with
  | AlgorithmParameters.EllipticCurve ⟨EllipticCurve.P256, xs, ys⟩ =>
    match string_to_big_num env xs with
    | Except.error e => Except.error e
    | Except.ok x =>
      match string_to_big_num env ys with
      | Except.error e => Except.error e
      | Except.ok y =>
        match env.ec_group_p256 with
        | none => Except.error WebhookVerificationError.Cryptography
        | some ec_group =>
          match env.ec_key_from_affine_coordinates ec_group x y with
          | none => Except.error WebhookVerificationError.Cryptography
          | some openssl_key =>
            match env.public_key_to_pem openssl_key with
            | none => Except.error WebhookVerificationError.Cryptography
            | some openssl_key_pem =>
              match env.decoding_key_from_ec_pem openssl_key_pem with
              | none => Except.error WebhookVerificationError.CouldNotParse
              | some k =>
                match env.jwt_decode_es256 token k with
                | none => Except.error WebhookVerificationError.CouldNotValidate
                | some token_data =>
                  if u64_sub env.now (5 * 60) > token_data.iat then
                    Except.ok false
                  else
                    match env.from_hex_32 token_data.request_body_sha256 with
                    | none => Except.error WebhookVerificationError.CouldNotParse
                    | some expected_sha =>
                      Except.ok (env.sha256 webhook_bytes == expected_sha)
  | _ => Except.ok false

/-- The run of `verify_webhook` reaches the decoded token claims `c`: the key
is an elliptic-curve P-256 key, both coordinates decode, the curve point and
its PEM encoding are built, and the ES256 signature check succeeds with
claims `c`. -/
def reaches_claims (env : CryptoEnv) (key : Jwk) (token : String) (c : Claims) : Prop :=
  ∃ xs ys x y g ek pem dk,
    key.inner.algorithm =
      AlgorithmParameters.EllipticCurve ⟨EllipticCurve.P256, xs, ys⟩ ∧
    string_to_big_num env xs = Except.ok x ∧
    string_to_big_num env ys = Except.ok y ∧
    env.ec_group_p256 = some g ∧
    env.ec_key_from_affine_coordinates g x y = some ek ∧
    env.public_key_to_pem ek = some pem ∧
    env.decoding_key_from_ec_pem pem = some dk ∧
    env.jwt_decode_es256 token dk = some c

theorem u64_sub_eq_sub {a b : Nat} (hba : b ≤ a) (ha : a < 2 ^ 64) :
    u64_sub a b = a - b := by
  unfold u64_sub
  have h1 : a + 2 ^ 64 - b = a - b + 2 ^ 64 := by omega
  rw [h1, Nat.add_mod_right, Nat.mod_eq_of_lt (by omega)]

theorem verify_webhook_of_reaches (env : CryptoEnv) (key : Jwk) (token : String)
    (body : List Nat) (c : Claims) (h : reaches_claims env key token c) :
    verify_webhook env key token body =
      if u64_sub env.now (5 * 60) > c.iat then Except.ok false
      else
        match env.from_hex_32 c.request_body_sha256 with
        | none => Except.error WebhookVerificationError.CouldNotParse
        | some expected_sha => Except.ok (env.sha256 body == expected_sha) := by
  obtain ⟨xs, ys, x, y, g, ek, pem, dk, halg, hx, hy, hg, hek, hpem, hdk, hjwt⟩ := h
  unfold verify_webhook
  rw [halg]
  simp only [hx, hy, hg, hek, hpem, hdk, hjwt]

theorem verify_webhook_ok_true_elim (env : CryptoEnv) (key : Jwk) (token : String)
    (body : List Nat) (h : verify_webhook env key token body = Except.ok true) :
    ∃ c, reaches_claims env key token c ∧
      ¬ u64_sub env.now (5 * 60) > c.iat ∧
      ∃ sha, env.from_hex_32 c.request_body_sha256 = some sha ∧
        env.sha256 body = sha := by
  unfold verify_webhook at h
  split at h
  case _ xs ys halg =>
    split at h
    case _ => simp at h
    case _ x hx =>
      split at h
      case _ => simp at h
      case _ y hy =>
        split at h
        case _ => simp at h
        case _ g hg =>
          split at h
          case _ => simp at h
          case _ ek hek =>
            split at h
            case _ => simp at h
            case _ pem hpem =>
              split at h
              case _ => simp at h
              case _ dk hdk =>
                split at h
                case _ => simp at h
                case _ c hjwt =>
                  split at h
                  case _ => simp at h
                  case _ hfresh =>
                    split at h
                    case _ => simp at h
                    case _ sha hsha =>
                      simp only [Except.ok.injEq] at h
                      rw [beq_iff_eq] at h
                      exact ⟨c, ⟨xs, ys, x, y, g, ek, pem, dk,
                        halg, hx, hy, hg, hek, hpem, hdk, hjwt⟩,
                        hfresh, sha, hsha, h⟩
  case _ => simp at h

/-- A concrete environment on which the whole verification pipeline
succeeds: the clock reads 1000, the token decodes to claims with
`iat = 900`, and the decoded digest claim equals the body's SHA-256. -/
def envOk : CryptoEnv where
  now := 1000
  decode_header := fun _ => some ⟨Algorithm.ES256, some "key-1"⟩
  decode_config_url_no_pad := fun _ => some [1]
  big_num_from_slice := fun _ => some 1
  ec_group_p256 := some ()
  ec_key_from_affine_coordinates := fun _ x y => some (x, y)
  public_key_to_pem := fun _ => some [0]
  decoding_key_from_ec_pem := fun p => some p
  jwt_decode_es256 := fun _ _ => some ⟨900, "digest"⟩
  sha256 := fun _ => [7, 7]
  from_hex_32 := fun _ => some [7, 7]

/-- Like `envOk` but the signature check yields claims whose `iat` is
`now - 301` (699 against a clock of 1000). -/
def envStale : CryptoEnv :=
  { envOk with jwt_decode_es256 := fun _ _ => some ⟨699, "digest"⟩ }

/-- Like `envOk` but the body hashes to a digest different from the decoded
`request_body_sha256` claim. -/
def envShaMismatch : CryptoEnv :=
  { envOk with sha256 := fun _ => [8] }

/-- A P-256 key. -/
def keyOk : Jwk :=
  ⟨⟨AlgorithmParameters.EllipticCurve ⟨EllipticCurve.P256, "eA", "eB"⟩⟩, 0, none⟩

/-- C1: `verify_webhook key token body` returns `Ok(true)` exactly when the
key is an elliptic-curve P-256 key whose coordinates decode and reconstruct
into a curve point, the token's ES256 signature verifies under that key, the
payload's `iat` is at most 300 seconds older than the current time, and the
SHA-256 of the body equals the decoded `request_body_sha256` claim.  Stated
for any clock value `now` in `[300, 2^64)`. -/
theorem verify_webhook_ok_true_iff (env : CryptoEnv) (key : Jwk) (token : String)
    (body : List Nat) (h300 : 300 ≤ env.now) (hlt : env.now < 2 ^ 64) :
    verify_webhook env key token body = Except.ok true ↔
      ∃ c, reaches_claims env key token c ∧ env.now - 300 ≤ c.iat ∧
        ∃ sha, env.from_hex_32 c.request_body_sha256 = some sha ∧
          env.sha256 body = sha := by
  have hsub : u64_sub env.now (5 * 60) = env.now - 300 := by
    have h := @u64_sub_eq_sub env.now (5 * 60) (by omega) hlt
    omega
  constructor
  · intro h
    obtain ⟨c, hr, hfresh, sha, hhex, hsha⟩ :=
      verify_webhook_ok_true_elim env key token body h
    rw [hsub] at hfresh
    exact ⟨c, hr, by omega, sha, hhex, hsha⟩
  · rintro ⟨c, hr, hfresh, sha, hhex, hsha⟩
    rw [verify_webhook_of_reaches env key token body c hr, hsub, if_neg (by omega)]
    simp [hhex, hsha]

/-- C1 witness: a fully successful concrete run returns `Ok(true)`. -/
theorem verify_webhook_ok_true_iff_witness :
    verify_webhook envOk keyOk "token" [1, 2] = Except.ok true :=
  (verify_webhook_ok_true_iff envOk keyOk "token" [1, 2] (by decide) (by decide)).2
    ⟨⟨900, "digest"⟩,
      ⟨"eA", "eB", 1, 1, (), (1, 1), [0], [0], rfl, rfl, rfl, rfl, rfl, rfl, rfl, rfl⟩,
      by decide, [7, 7], rfl, rfl⟩

/-- C2: when the signature check succeeds with claims `c`, an `iat` more
than 300 seconds older than the clock yields `Ok(false)` (not an error);
and a future-dated `iat` (`now < iat`) is not rejected by the freshness
check — the run proceeds to the digest comparison. -/
theorem verify_webhook_stale_iat (env : CryptoEnv) (key : Jwk) (token : String)
    (body : List Nat) (c : Claims) (hr : reaches_claims env key token c)
    (h300 : 300 ≤ env.now) (hlt : env.now < 2 ^ 64) :
    (c.iat < env.now - 300 → verify_webhook env key token body = Except.ok false) ∧
    (env.now < c.iat → ∀ sha, env.from_hex_32 c.request_body_sha256 = some sha →
      verify_webhook env key token body = Except.ok (env.sha256 body == sha)) := by
  have hsub : u64_sub env.now (5 * 60) = env.now - 300 := by
    have h := @u64_sub_eq_sub env.now (5 * 60) (by omega) hlt
    omega
  constructor
  · intro hstale
    rw [verify_webhook_of_reaches env key token body c hr, hsub, if_pos (by omega)]
  · intro hfut sha hhex
    rw [verify_webhook_of_reaches env key token body c hr, hsub, if_neg (by omega)]
    simp [hhex]

/-- C2 witness: a cryptographically valid token with `iat = now - 301`
(699 against a clock of 1000) yields `Ok(false)`. -/
theorem verify_webhook_stale_iat_witness :
    verify_webhook envStale keyOk "token" [1, 2] = Except.ok false :=
  (verify_webhook_stale_iat envStale keyOk "token" [1, 2] ⟨699, "digest"⟩
    ⟨"eA", "eB", 1, 1, (), (1, 1), [0], [0], rfl, rfl, rfl, rfl, rfl, rfl, rfl, rfl⟩
    (by decide) (by decide)).1 (by decide)

/-- C3: when the signature check succeeds, the `iat` is fresh, and the
`request_body_sha256` claim hex-decodes to `sha`, the result is `Ok(false)`
whenever the body's SHA-256 differs from `sha` in any byte, and `Ok(true)`
when they are equal byte-for-byte. -/
theorem verify_webhook_digest_check (env : CryptoEnv) (key : Jwk) (token : String)
    (body : List Nat) (c : Claims) (sha : List Nat)
    (hr : reaches_claims env key token c)
    (h300 : 300 ≤ env.now) (hlt : env.now < 2 ^ 64)
    (hfresh : env.now - 300 ≤ c.iat)
    (hhex : env.from_hex_32 c.request_body_sha256 = some sha) :
    (env.sha256 body ≠ sha → verify_webhook env key token body = Except.ok false) ∧
    (env.sha256 body = sha → verify_webhook env key token body = Except.ok true) := by
  have hsub : u64_sub env.now (5 * 60) = env.now - 300 := by
    have h := @u64_sub_eq_sub env.now (5 * 60) (by omega) hlt
    omega
  have heq := verify_webhook_of_reaches env key token body c hr
  rw [hsub, if_neg (by omega)] at heq
  constructor
  · intro hne
    rw [heq]
    simp [hhex, hne]
  · intro he
    rw [heq]
    simp [hhex, he]

/-- C3 witness: a fresh, signature-valid run whose body digest differs from
the decoded claim returns `Ok(false)`. -/
theorem verify_webhook_digest_check_witness :
    verify_webhook envShaMismatch keyOk "token" [1, 2] = Except.ok false :=
  (verify_webhook_digest_check envShaMismatch keyOk "token" [1, 2] ⟨900, "digest"⟩ [7, 7]
    ⟨"eA", "eB", 1, 1, (), (1, 1), [0], [0], rfl, rfl, rfl, rfl, rfl, rfl, rfl, rfl⟩
    (by decide) (by decide) (by decide) rfl).1 (by decide)

/-- A key carrying `expired_at = Some 100`. -/
def jwkExp100 : Jwk := ⟨⟨AlgorithmParameters.RSA⟩, 0, some 100⟩

/-- A key whose algorithm parameters are not elliptic-curve at all. -/
def keyRSA : Jwk := ⟨⟨AlgorithmParameters.RSA⟩, 0, none⟩

/-- An elliptic-curve key on the unsupported P-384 curve. -/
def keyP384 : Jwk :=
  ⟨⟨AlgorithmParameters.EllipticCurve ⟨EllipticCurve.P384, "eA", "eB"⟩⟩, 0, none⟩

/-- Like `envOk` but the ES256 signature check fails. -/
def envBadSig : CryptoEnv :=
  { envOk with jwt_decode_es256 := fun _ _ => none }

/-- Like `envOk` but the token's header segment does not decode. -/
def envHdrNone : CryptoEnv :=
  { envOk with decode_header := fun _ => none }

/-- Like `envOk` but the claims are stale (`iat = 699` against a clock of
1000) and their `request_body_sha256` does not hex-decode. -/
def envStaleBadHex : CryptoEnv :=
  { envOk with jwt_decode_es256 := fun _ _ => some ⟨699, "zz"⟩,
               from_hex_32 := fun _ => none }

/-- C4 counterexample: at `now = expired_at = 100` the code returns
`Some(false)`, not the `Some(true)` the claim requires for `now >= expired_at`. -/
theorem is_expired_boundary_counterexample :
    Jwk.is_expired jwkExp100 100 = some false ∧
    ¬ Jwk.is_expired jwkExp100 100 = some true := by decide

/-- C4 (amended): `is_expired` returns `none` when the key carries no
`expired_at`, `some true` when `expired_at < now` (strictly), and
`some false` when `now ≤ expired_at`; it is a pure function of the key and
the clock. -/
theorem is_expired_spec (k : Jwk) (now : Nat) :
    (k.expired_at = none → k.is_expired now = none) ∧
    (∀ e, k.expired_at = some e → e < now → k.is_expired now = some true) ∧
    (∀ e, k.expired_at = some e → now ≤ e → k.is_expired now = some false) := by
  refine ⟨?_, ?_, ?_⟩
  · intro h
    simp [Jwk.is_expired, h]
  · intro e he hlt
    simp [Jwk.is_expired, he, hlt]
  · intro e he hle
    simp [Jwk.is_expired, he]
    omega

/-- C4 witness: one second past expiry the key reports expired. -/
theorem is_expired_spec_witness : Jwk.is_expired jwkExp100 101 = some true :=
  (is_expired_spec jwkExp100 101).2.1 100 rfl (by decide)

/-- C5: a key whose algorithm parameters are not an elliptic-curve P-256 key
makes `verify_webhook` return `Ok(false)` for every environment, token and
body — a boolean rejection, not an error, with no dependence on any of the
decoding or cryptographic operations. -/
theorem verify_webhook_non_p256_false (env : CryptoEnv) (key : Jwk) (token : String)
    (body : List Nat)
    (h : ∀ xs ys, key.inner.algorithm ≠
      AlgorithmParameters.EllipticCurve ⟨EllipticCurve.P256, xs, ys⟩) :
    verify_webhook env key token body = Except.ok false := by
  unfold verify_webhook
  split
  case _ xs ys halg => exact absurd halg (h xs ys)
  case _ => rfl

/-- C5 witness: an RSA key is rejected with `Ok(false)`. -/
theorem verify_webhook_non_p256_false_witness :
    verify_webhook envOk keyRSA "token" [1, 2] = Except.ok false :=
  verify_webhook_non_p256_false envOk keyRSA "token" [1, 2]
    (by intro xs ys h; simp [keyRSA] at h)

/-- C6 counterexample: verifying with a P-384 key returns `Ok(false)`; it
does not signal the `IncorrectAlgorithm` error the claim asserts. -/
theorem verify_webhook_wrong_curve_counterexample :
    verify_webhook envOk keyP384 "token" [1, 2] = Except.ok false ∧
    ¬ verify_webhook envOk keyP384 "token" [1, 2] =
        Except.error WebhookVerificationError.IncorrectAlgorithm := by
  have hv : verify_webhook envOk keyP384 "token" [1, 2] = Except.ok false := rfl
  exact ⟨hv, by rw [hv]; simp⟩

/-- C6 (amended): an elliptic-curve key whose curve is anything other than
P-256 makes `verify_webhook` return `Ok(false)` — a boolean rejection, not an
`IncorrectAlgorithm` error and not a key-not-found condition. -/
theorem verify_webhook_wrong_curve_ok_false (env : CryptoEnv) (key : Jwk)
    (token : String) (body : List Nat) (p : EllipticCurveKeyParameters)
    (halg : key.inner.algorithm = AlgorithmParameters.EllipticCurve p)
    (hc : p.curve ≠ EllipticCurve.P256) :
    verify_webhook env key token body = Except.ok false := by
  unfold verify_webhook
  split
  case _ xs ys heq =>
    rw [halg] at heq
    injection heq with h1
    rw [h1] at hc
    simp at hc
  case _ => rfl

/-- C6 witness: the P-384 key yields `Ok(false)`. -/
theorem verify_webhook_wrong_curve_ok_false_witness :
    verify_webhook envOk keyP384 "tok" [3] = Except.ok false :=
  verify_webhook_wrong_curve_ok_false envOk keyP384 "tok" [3]
    ⟨EllipticCurve.P384, "eA", "eB"⟩ rfl (by decide)

/-- C7 counterexample: when the ES256 signature check fails, the code
returns `Err(CouldNotValidate)`, not the `Ok(false)` the claim asserts. -/
theorem verify_webhook_bad_sig_counterexample :
    verify_webhook envBadSig keyOk "token" [1, 2] =
        Except.error WebhookVerificationError.CouldNotValidate ∧
    ¬ verify_webhook envBadSig keyOk "token" [1, 2] = Except.ok false := by
  have hv : verify_webhook envBadSig keyOk "token" [1, 2] =
      Except.error WebhookVerificationError.CouldNotValidate := rfl
  exact ⟨hv, by rw [hv]; simp⟩

/-- C7 (amended): when the run reaches the signature check and that check
fails, `verify_webhook` returns the error `CouldNotValidate` (not a boolean
`Ok(false)`). -/
theorem verify_webhook_bad_signature_error (env : CryptoEnv) (key : Jwk)
    (token : String) (body : List Nat) (xs ys : String) (x y : Nat) (g : Unit)
    (ek : Nat × Nat) (pem dk : List Nat)
    (halg : key.inner.algorithm =
      AlgorithmParameters.EllipticCurve ⟨EllipticCurve.P256, xs, ys⟩)
    (hx : string_to_big_num env xs = Except.ok x)
    (hy : string_to_big_num env ys = Except.ok y)
    (hg : env.ec_group_p256 = some g)
    (hek : env.ec_key_from_affine_coordinates g x y = some ek)
    (hpem : env.public_key_to_pem ek = some pem)
    (hdk : env.decoding_key_from_ec_pem pem = some dk)
    (hjwt : env.jwt_decode_es256 token dk = none) :
    verify_webhook env key token body =
      Except.error WebhookVerificationError.CouldNotValidate := by
  unfold verify_webhook
  rw [halg]
  simp only [hx, hy, hg, hek, hpem, hdk, hjwt]

/-- C7 witness: a concrete failing signature check yields `CouldNotValidate`. -/
theorem verify_webhook_bad_signature_error_witness :
    verify_webhook envBadSig keyOk "tok2" [9] =
      Except.error WebhookVerificationError.CouldNotValidate :=
  verify_webhook_bad_signature_error envBadSig keyOk "tok2" [9] "eA" "eB" 1 1 ()
    (1, 1) [0] [0] rfl rfl rfl rfl rfl rfl rfl rfl

/-- C8: `extract_key_id` returns `Ok(kid)` exactly when the header decodes,
declares ES256 and carries a `kid`; it fails with `CouldNotParse` when the
header does not decode, with `IncorrectAlgorithm` when the declared
algorithm is not ES256, and with `MissingParameter("kid")` when no key
identifier is present. -/
theorem extract_key_id_spec (env : CryptoEnv) (token : String) :
    (env.decode_header token = none →
      extract_key_id env token = Except.error WebhookVerificationError.CouldNotParse) ∧
    (∀ hd, env.decode_header token = some hd → hd.alg ≠ Algorithm.ES256 →
      extract_key_id env token =
        Except.error WebhookVerificationError.IncorrectAlgorithm) ∧
    (∀ hd, env.decode_header token = some hd → hd.alg = Algorithm.ES256 →
      hd.kid = none →
      extract_key_id env token =
        Except.error (WebhookVerificationError.MissingParameter "kid")) ∧
    (∀ kid, extract_key_id env token = Except.ok kid ↔
      ∃ hd, env.decode_header token = some hd ∧ hd.alg = Algorithm.ES256 ∧
        hd.kid = some kid) := by
  refine ⟨?_, ?_, ?_, ?_⟩
  · intro h
    simp [extract_key_id, h]
  · intro hd hh hne
    simp [extract_key_id, hh, hne]
  · intro hd hh ha hk
    simp [extract_key_id, hh, ha, hk]
  · intro kid
    constructor
    · intro h
      unfold extract_key_id at h
      split at h
      case _ => simp at h
      case _ hd hh =>
        split at h
        case _ => simp at h
        case _ hal =>
          split at h
          case _ kid2 hk =>
            simp only [Except.ok.injEq] at h
            exact ⟨hd, hh, by simpa using hal, by rw [hk, h]⟩
          case _ => simp at h
    · rintro ⟨hd, hh, ha, hk⟩
      simp [extract_key_id, hh, ha, hk]

/-- C8 witness: an undecodable header segment yields `CouldNotParse`. -/
theorem extract_key_id_spec_witness :
    extract_key_id envHdrNone "token" =
      Except.error WebhookVerificationError.CouldNotParse :=
  (extract_key_id_spec envHdrNone "token").1 rfl

/-- C9: the freshness check's unguarded `now - (5 * 60)` on `u64` does not
underflow for any clock value `now ≥ 300`: the checked subtraction succeeds
and the wrapping subtraction used in `verify_webhook` agrees with the exact
natural-number difference, so the check is total there. -/
theorem u64_freshness_no_underflow (now : Nat) (h : 300 ≤ now)
    (hlt : now < 2 ^ 64) :
    u64_checked_sub now (5 * 60) = some (now - (5 * 60)) ∧
    u64_sub now (5 * 60) = now - (5 * 60) := by
  constructor
  · unfold u64_checked_sub
    rw [if_pos (by omega)]
  · exact @u64_sub_eq_sub now (5 * 60) (by omega) hlt

/-- C9 witness: at `now = 301` the subtraction is exact. -/
theorem u64_freshness_no_underflow_witness :
    u64_checked_sub 301 (5 * 60) = some (301 - (5 * 60)) ∧
    u64_sub 301 (5 * 60) = 301 - (5 * 60) :=
  u64_freshness_no_underflow 301 (by decide) (by norm_num)

/-- C10: a stale token (signature valid, `iat` more than 300 seconds old)
returns `Ok(false)` even when its `request_body_sha256` claim does not
hex-decode: the freshness check fires before the hex decode, so no
`CouldNotParse` error is produced. -/
theorem verify_webhook_stale_before_hex (env : CryptoEnv) (key : Jwk)
    (token : String) (body : List Nat) (c : Claims)
    (hr : reaches_claims env key token c)
    (h300 : 300 ≤ env.now) (hlt : env.now < 2 ^ 64)
    (hstale : c.iat < env.now - 300)
    (hbad : env.from_hex_32 c.request_body_sha256 = none) :
    verify_webhook env key token body = Except.ok false := by
  have hsub : u64_sub env.now (5 * 60) = env.now - 300 := by
    have h := @u64_sub_eq_sub env.now (5 * 60) (by omega) hlt
    omega
  rw [verify_webhook_of_reaches env key token body c hr, hsub, if_pos (by omega)]

/-- C10 witness: stale claims with a non-hex digest claim still give
`Ok(false)`. -/
theorem verify_webhook_stale_before_hex_witness :
    verify_webhook envStaleBadHex keyOk "token" [1, 2] = Except.ok false :=
  verify_webhook_stale_before_hex envStaleBadHex keyOk "token" [1, 2] ⟨699, "zz"⟩
    ⟨"eA", "eB", 1, 1, (), (1, 1), [0], [0], rfl, rfl, rfl, rfl, rfl, rfl, rfl, rfl⟩
    (by decide) (by decide) (by decide) rfl

end Plaid
